import Mathlib

/-!
Verification of the `sql_basics` data-access script against its
specification.  The script drives an embedded SQLite database through two
tables (`users`, `orders`), a view, aggregates, a guarded transaction and a
trigger.  We embed the relevant relational state and the exact statements
the script issues as Lean functions and prove the specification's testable
properties about them.
-/

/-- A row of the `users` table:
`id INTEGER PRIMARY KEY AUTOINCREMENT, name TEXT NOT NULL, age INTEGER NOT
NULL, email TEXT NOT NULL UNIQUE, city TEXT` (src/sql_basics.py lines 8-16). -/
structure User where
  id : Nat
  name : String
  age : Int
  email : String
  city : Option String
deriving Repr, DecidableEq

/-- A row of the `orders` table:
`order_id INTEGER PRIMARY KEY AUTOINCREMENT, user_id INTEGER, product_name
TEXT NOT NULL, quantity INTEGER NOT NULL, FOREIGN KEY (user_id) REFERENCES
users (id)` (src/sql_basics.py lines 96-104). -/
structure Order where
  order_id : Nat
  user_id : Nat
  product_name : String
  quantity : Int
deriving Repr, DecidableEq

/-- The committed database state: the two tables plus the AUTOINCREMENT
counters that issue the identity keys. -/
structure DB where
  users : List User
  orders : List Order
  nextUserId : Nat
  nextOrderId : Nat
deriving Repr, DecidableEq

/-- The error taxonomy of the data-access layer: constraint breaches
(uniqueness / referential integrity) and use of the handle after close. -/
inductive DalError where
  | constraintViolation : String → DalError
  | useAfterClose : DalError
deriving Repr, DecidableEq

/-- The state of a fresh database file: empty tables, identity counters at 1. -/
def emptyDB : DB := ⟨[], [], 1, 1⟩

/-- One execution of
`INSERT INTO users (name, age, email, city) VALUES (?, ?, ?, ?)`
(src/sql_basics.py line 26).  The bound parameters arrive in the source's
order `(name, age, email, city)`.  The `UNIQUE` constraint on `email` makes
the statement fail with an IntegrityError when the email is already present;
otherwise the row is appended with the next auto-issued id. -/
def insertUser (db : DB) (r : String × Int × String × Option String) :
    Except DalError DB :=
  if db.users.any (fun u => u.email == r.2.2.1) then
    .error (.constraintViolation "UNIQUE constraint failed: users.email")
  else
    .ok { db with
      users := db.users ++ [⟨db.nextUserId, r.1, r.2.1, r.2.2.1, r.2.2.2⟩],
      nextUserId := db.nextUserId + 1 }

/-- One execution of
`INSERT INTO orders (user_id, product_name, quantity) VALUES (?, ?, ?)`
(src/sql_basics.py lines 112, 208).  The `FOREIGN KEY (user_id) REFERENCES
users (id)` clause is checked only when the engine's foreign-key
enforcement is on, hence the `fkEnforced` flag. -/
def insertOrder (fkEnforced : Bool) (db : DB) (r : Nat × String × Int) :
    Except DalError DB :=
  if fkEnforced && !(db.users.any (fun u => u.id == r.1)) then
    .error (.constraintViolation "FOREIGN KEY constraint failed")
  else
    .ok { db with
      orders := db.orders ++ [⟨db.nextOrderId, r.1, r.2.1, r.2.2⟩],
      nextOrderId := db.nextOrderId + 1 }

/-- The script opens `example.db` with Python's `sqlite3.connect` and never
issues `PRAGMA foreign_keys = ON`; SQLite's `foreign_keys` pragma defaults
to OFF, so the connection the script actually uses does not enforce the
`FOREIGN KEY` clause of the `orders` table. -/
def scriptFkEnforced : Bool := false

/-- `cursor.executemany` over the user insert statement: the rows are
inserted one statement at a time inside one implicit transaction; the first
constraint breach raises and aborts the rest of the batch. -/
def insertUsersRun (db : DB) : List (String × Int × String × Option String) →
    Except DalError DB
  | [] => .ok db
  | r :: rs =>
    match insertUser db r with
    | .error e => .error e
    | .ok db1 => insertUsersRun db1 rs

/-- The committed state after `cursor.executemany(INSERT INTO users ...)`
followed by `connection.commit()` (src/sql_basics.py lines 26-27): on
success every row of the batch is committed; on an IntegrityError the
exception propagates before `commit()` runs, so the implicit transaction is
never committed and the committed state is unchanged. -/
def seedUsersCommitted (db : DB)
    (rows : List (String × Int × String × Option String)) : DB :=
  match insertUsersRun db rows with
  | .ok db1 => db1
  | .error _ => db

/-- `cursor.executemany` over the order insert statement (src/sql_basics.py
line 112), one statement per row. -/
def insertOrdersRun (fkEnforced : Bool) (db : DB) :
    List (Nat × String × Int) → Except DalError DB
  | [] => .ok db
  | r :: rs =>
    match insertOrder fkEnforced db r with
    | .error e => .error e
    | .ok db1 => insertOrdersRun fkEnforced db1 rs

/-- Committed state after the order batch plus `connection.commit()`
(src/sql_basics.py lines 112-113). -/
def seedOrdersCommitted (fkEnforced : Bool) (db : DB)
    (rows : List (Nat × String × Int)) : DB :=
  match insertOrdersRun fkEnforced db rows with
  | .ok db1 => db1
  | .error _ => db

/-- `SELECT * FROM users WHERE age > 30` (src/sql_basics.py line 45). -/
def usersOlderThan30 (db : DB) : List User :=
  db.users.filter (fun u => 30 < u.age)

/-- `UPDATE users SET age = ? WHERE name = ?` — the script's parameterized
update shape (src/sql_basics.py line 82 runs it with age 31, name Alice).
Returns the affected-row count (`cursor.rowcount`) with the new state. -/
def updateUserAge (db : DB) (n : String) (v : Int) : Nat × DB :=
  (db.users.countP (fun u => u.name == n),
   { db with users := (db.users.map
      (fun u => if u.name == n then { u with age := v } else u)) })

/-- `DELETE FROM users WHERE name = ?` (src/sql_basics.py line 86).
Returns the affected-row count with the new state. -/
def deleteUser (db : DB) (n : String) : Nat × DB :=
  (db.users.countP (fun u => u.name == n),
   { db with users := db.users.filter (fun u => !(u.name == n)) })

/-- The `users_data` batch seeded at src/sql_basics.py lines 20-25. -/
def users_data : List (String × Int × String × Option String) :=
  [("Alice", 30, "alice@example.com", some "New York"),
   ("Bob", 25, "bob@example.com", some "Los Angeles"),
   ("Charlie", 35, "charlie@example.com", some "Chicago"),
   ("David", 40, "david@example.com", some "Houston")]

/-- The `orders_data` batch seeded at src/sql_basics.py lines 106-111. -/
def orders_data : List (Nat × String × Int) :=
  [(1, "Laptop", 1), (1, "Mouse", 2), (3, "Keyboard", 1), (4, "Monitor", 2)]

/-- Database state after the user seed and commit (src/sql_basics.py line 27). -/
def scriptSeededDB : DB := seedUsersCommitted emptyDB users_data

/-- Database state after `UPDATE users SET age = 31 WHERE name = 'Alice'`
(src/sql_basics.py lines 82-83). -/
def scriptAfterUpdateDB : DB := (updateUserAge scriptSeededDB "Alice" 31).2

/-- Database state after `DELETE FROM users WHERE name = 'Bob'`
(src/sql_basics.py lines 86-87). -/
def scriptAfterDeleteDB : DB := (deleteUser scriptAfterUpdateDB "Bob").2

/-- Database state after seeding the orders table (src/sql_basics.py
lines 112-113); this is the state the joins, aggregates, grouping and the
transaction block then run against. -/
def scriptPreTxDB : DB :=
  seedOrdersCommitted scriptFkEnforced scriptAfterDeleteDB orders_data

/-- The inner-join read issued directly:
`SELECT users.name, orders.product_name, orders.quantity FROM users INNER
JOIN orders ON users.id = orders.user_id` (src/sql_basics.py lines 123-127). -/
def joinUserOrders (db : DB) : List (String × String × Int) :=
  db.users.flatMap (fun u =>
    (db.orders.filter (fun o => o.user_id == u.id)).map
      (fun o => (u.name, o.product_name, o.quantity)))

/-- Reading `SELECT * FROM user_orders_view` (src/sql_basics.py line 142).
The view was created with
`CREATE VIEW IF NOT EXISTS user_orders_view AS SELECT users.name,
orders.product_name, orders.quantity FROM users INNER JOIN orders ON
users.id = orders.user_id` (lines 133-138): a view stores only its defining
statement, so each read re-runs that inner join against the current state. -/
def userOrdersViewRead (db : DB) : List (String × String × Int) :=
  db.users.flatMap (fun u =>
    (db.orders.filter (fun o => o.user_id == u.id)).map
      (fun o => (u.name, o.product_name, o.quantity)))

/-- The number of orders whose `user_id` equals this user's `id`: the value
`COUNT(o.order_id)` contributes for one user under the left join, since the
lone left-join row of an order-less user carries a NULL `o.order_id`, which
`COUNT` skips. -/
def userOrderCount (db : DB) (u : User) : Nat :=
  (db.orders.filter (fun o => o.user_id == u.id)).length

/-- `SELECT u.name, COUNT(o.order_id) FROM users u LEFT JOIN orders o ON
u.id = o.user_id GROUP BY u.name` (src/sql_basics.py lines 174-179).
Grouping is by the `name` column: one output row per distinct name, whose
count totals the matched orders of every user bearing that name. -/
def groupOrderCounts (db : DB) : List (String × Nat) :=
  (db.users.map (fun u => u.name)).dedup.map (fun n =>
    (n, ((db.users.filter (fun u => u.name == n)).map
          (fun u => userOrderCount db u)).sum))

/-- The same grouped query with `HAVING COUNT(o.order_id) > 1`
(src/sql_basics.py lines 185-191): groups whose count exceeds 1. -/
def groupOrderCountsHaving1 (db : DB) : List (String × Nat) :=
  (groupOrderCounts db).filter (fun p => 1 < p.2)

/-- `SELECT COUNT(*) FROM users` (src/sql_basics.py line 150). -/
def countUsers (db : DB) : Nat := db.users.length

/-- `SELECT AVG(age) FROM users` (src/sql_basics.py line 155): NULL on an
empty table, otherwise the exact mean of the ages. -/
def avgAge (db : DB) : Option ℚ :=
  match db.users with
  | [] => none
  | _ => some (((db.users.map (fun u => u.age)).sum : ℚ) / (db.users.length : ℚ))

/-- `SELECT MAX(age) from users` (src/sql_basics.py line 160): NULL on an
empty table, otherwise the greatest age. -/
def maxAge (db : DB) : Option Int :=
  match db.users.map (fun u => u.age) with
  | [] => none
  | a :: rest => some (rest.foldl max a)

/-- `SELECT SUM(quantity) FROM orders` (src/sql_basics.py line 165): NULL
on an empty table, otherwise the sum of the quantities. -/
def sumQuantity (db : DB) : Option Int :=
  match db.orders with
  | [] => none
  | _ => some ((db.orders.map (fun o => o.quantity)).sum)

/-- The transaction block of src/sql_basics.py lines 199-222: `BEGIN`, then
`INSERT INTO users ... ('Eve', 28, 'eve@newdomain.com', 'Miami')`, then
`INSERT INTO orders ... (999, 'Tablet', 1)`, then `connection.commit()`;
any IntegrityError is caught and answered with `connection.rollback()`,
which restores the pre-transaction state.  Returns whether the commit
happened together with the resulting committed state. -/
def scriptTransaction (fkEnforced : Bool) (db : DB) : Bool × DB :=
  match insertUser db ("Eve", 28, "eve@newdomain.com", some "Miami") with
  | .error _ => (false, db)
  | .ok db1 =>
    match insertOrder fkEnforced db1 (999, "Tablet", 1) with
    | .error _ => (false, db)
    | .ok db2 => (true, db2)

/-- The per-row action of the trigger `update_user_age` (src/sql_basics.py
lines 245-252): `UPDATE users SET age = NEW.age WHERE id = OLD.id`, where
`NEW.age` is the value just written and `OLD.id` the updated row's key. -/
def triggerAction (db : DB) (oldId : Nat) (newAge : Int) : DB :=
  { db with users := (db.users.map
      (fun u => if u.id == oldId then { u with age := newAge } else u)) }

/-- `UPDATE users SET age = ? WHERE name = ?` with the trigger
`update_user_age` installed: the statement runs as in `updateUserAge`, and
afterwards the trigger fires once for each row the update matched
(`AFTER UPDATE OF age ... FOR EACH ROW`), re-setting that row's age to the
new value.  SQLite's `recursive_triggers` pragma defaults to OFF, so the
trigger's own UPDATE does not fire the trigger again. -/
def updateUserAgeWithTrigger (db : DB) (n : String) (v : Int) : Nat × DB :=
  ((updateUserAge db n v).1,
   (db.users.filter (fun u => u.name == n)).foldl
     (fun acc u => triggerAction acc u.id v) (updateUserAge db n v).2)

/-- Modelled from the spec: the store-handle life cycle
`Closed → Open → Closed (terminal)` of §4.1.  The script only ever closes
the handle once at the end (src/sql_basics.py lines 257-258); the states
and the `UseAfterClose` failure are the spec's abstraction of the
engine-level connection object. -/
inductive HandleState where
  | opened
  | closed
deriving Repr, DecidableEq

/-- Modelled from the spec: the initialization edge `Closed → Open` is the
`sqlite3.connect` call (src/sql_basics.py line 4); it is the only way to
obtain an `opened` handle and is not one of the store operations below. -/
def connectStore : HandleState := .opened

/-- Modelled from the spec: the operations the store handle serves.  All of
them except initialization require the `opened` state. -/
inductive StoreOp where
  | query
  | insert
  | update
  | delete
  | aggregate
  | closeHandle
deriving Repr, DecidableEq

/-- Modelled from the spec: running one operation against the handle.  In
the `opened` state every operation succeeds, `closeHandle` moving the
handle to `closed`; in the `closed` state every operation — `closeHandle`
included — fails with `UseAfterClose`, so `closed` is terminal. -/
def stepHandle : HandleState → StoreOp → Except DalError HandleState
  | .opened, .closeHandle => .ok .closed
  | .opened, _ => .ok .opened
  | .closed, _ => .error .useAfterClose

/-! ## Helper lemmas -/

/-- A fold of a function whose every step fixes the accumulator returns the
accumulator. -/
theorem foldl_fixed_point {α β : Type} (f : β → α → β) (b : β) :
    ∀ l : List α, (∀ a ∈ l, f b a = b) → l.foldl f b = b
  | [], _ => rfl
  | a :: t, h => by
    rw [List.foldl_cons, h a (List.mem_cons_self a t)]
    exact foldl_fixed_point f b t (fun x hx => h x (List.mem_cons_of_mem a hx))

/-- Mapping a function that fixes every member of a list is the identity. -/
theorem map_fixed_point {α : Type} {f : α → α} {l : List α}
    (h : ∀ a ∈ l, f a = a) : l.map f = l :=
  (List.map_congr_left h).trans (List.map_id l)

/-! ## Claim theorems -/

/-- C3: `SELECT * FROM users WHERE age > 30` returns exactly the stored
rows whose age exceeds 30, in store order; on the seeded ages
{30, 25, 35, 40} it returns exactly the rows of Charlie (35) and David
(40). -/
theorem usersOlderThan30_exact :
    (∀ db : DB, ∀ u : User, u ∈ usersOlderThan30 db ↔ u ∈ db.users ∧ 30 < u.age) ∧
    (usersOlderThan30 scriptSeededDB).map (fun u => (u.name, u.age)) =
      [("Charlie", (35 : Int)), ("David", 40)] := by
  constructor
  · intro db u
    simp [usersOlderThan30, List.mem_filter]
  · decide

/-- C3 witness: the general characterization instantiated on the script's
seeded table and Charlie's row. -/
theorem usersOlderThan30_exact_witness :
    ⟨3, "Charlie", 35, "charlie@example.com", some "Chicago"⟩ ∈
      usersOlderThan30 scriptSeededDB ↔
    (⟨3, "Charlie", 35, "charlie@example.com", some "Chicago"⟩ ∈
      scriptSeededDB.users ∧ (30 : Int) < 35) :=
  usersOlderThan30_exact.1 scriptSeededDB
    ⟨3, "Charlie", 35, "charlie@example.com", some "Chicago"⟩

/-- C4: an UPDATE or DELETE whose equality predicate matches no row
reports 0 affected rows and leaves the table exactly as it was; no error
is raised (both return normally). -/
theorem updateUser_deleteUser_no_match (db : DB) (n : String) (v : Int)
    (h : ∀ u ∈ db.users, u.name ≠ n) :
    updateUserAge db n v = (0, db) ∧ deleteUser db n = (0, db) := by
  have hc : db.users.countP (fun u => u.name == n) = 0 := by
    rw [List.countP_eq_zero]
    intro u hu
    simpa using h u hu
  have hmap : db.users.map
      (fun u => if u.name == n then { u with age := v } else u) = db.users := by
    apply map_fixed_point
    intro u hu
    rw [if_neg (by simpa using h u hu)]
  have hfil : db.users.filter (fun u => !(u.name == n)) = db.users := by
    rw [List.filter_eq_self]
    intro u hu
    simpa using h u hu
  refine ⟨?_, ?_⟩
  · unfold updateUserAge
    rw [hc, hmap]
  · unfold deleteUser
    rw [hc, hfil]

/-- C4 witness: updating or deleting the absent name `Zara` on the seeded
table affects 0 rows and changes nothing. -/
theorem updateUser_deleteUser_no_match_witness :
    updateUserAge scriptSeededDB "Zara" 99 = (0, scriptSeededDB) ∧
    deleteUser scriptSeededDB "Zara" = (0, scriptSeededDB) :=
  updateUser_deleteUser_no_match scriptSeededDB "Zara" 99 (by decide)

/-- C6: the aggregates follow NULL-on-empty semantics: `AVG(age)` and
`MAX(age)` are NULL (not 0, not an error) whenever the users table is
empty, and `SUM(quantity)` is NULL whenever the orders table is empty. -/
theorem aggregates_null_on_empty (db : DB) :
    (db.users = [] → avgAge db = none ∧ maxAge db = none) ∧
    (db.orders = [] → sumQuantity db = none) := by
  constructor
  · intro h
    unfold avgAge maxAge
    rw [h]
    exact ⟨rfl, rfl⟩
  · intro h
    unfold sumQuantity
    rw [h]

/-- C6 witness: on the fresh empty database all three aggregates are NULL. -/
theorem aggregates_null_on_empty_witness :
    avgAge emptyDB = none ∧ maxAge emptyDB = none ∧ sumQuantity emptyDB = none :=
  ⟨((aggregates_null_on_empty emptyDB).1 rfl).1,
   ((aggregates_null_on_empty emptyDB).1 rfl).2,
   (aggregates_null_on_empty emptyDB).2 rfl⟩

/-- C1: what the transaction block actually does on the script's
pre-transaction state.  Because the script never turns SQLite's
foreign-key enforcement on (`scriptFkEnforced = false`), the order insert
with the dangling `user_id` 999 raises no IntegrityError: the commit
succeeds, the users row count grows from 3 to 4, the orders row count from
4 to 5, and both Eve's row and the dangling order are visible afterwards —
contradicting the claimed full rollback.  Had enforcement been on
(`fkEnforced = true`), the block would roll back to the unchanged
pre-transaction state exactly as the claim demands. -/
theorem scriptTransaction_commits_despite_fk_violation :
    (scriptTransaction scriptFkEnforced scriptPreTxDB).1 = true ∧
    (scriptTransaction scriptFkEnforced scriptPreTxDB).2.users.length =
      scriptPreTxDB.users.length + 1 ∧
    (scriptTransaction scriptFkEnforced scriptPreTxDB).2.orders.length =
      scriptPreTxDB.orders.length + 1 ∧
    (⟨5, "Eve", 28, "eve@newdomain.com", some "Miami"⟩ : User) ∈
      (scriptTransaction scriptFkEnforced scriptPreTxDB).2.users ∧
    (⟨5, 999, "Tablet", 1⟩ : Order) ∈
      (scriptTransaction scriptFkEnforced scriptPreTxDB).2.orders ∧
    scriptTransaction true scriptPreTxDB = (false, scriptPreTxDB) := by
  refine ⟨rfl, rfl, rfl, ?_, ?_, by decide⟩ <;> decide

/-- C10: `DELETE FROM users` never touches the orders table (the schema
defines no ON DELETE action), and a delete can leave an order whose
`user_id` references no remaining user: deleting Alice from the script's
populated state leaves her Laptop order pointing at the vanished id 1. -/
theorem deleteUser_orders_frame :
    (∀ (db : DB) (n : String), (deleteUser db n).2.orders = db.orders) ∧
    (∃ (db : DB) (n : String) (o : Order), o ∈ (deleteUser db n).2.orders ∧
      ∀ u ∈ (deleteUser db n).2.users, u.id ≠ o.user_id) := by
  constructor
  · intro db n
    rfl
  · exact ⟨scriptPreTxDB, "Alice", ⟨1, 1, "Laptop", 1⟩, by decide, by decide⟩

/-- C8: the store handle's life cycle.  After `close()` the handle is in
`closed` and every operation — query, insert, update, delete, aggregate,
and a second close alike — fails with `UseAfterClose`, so `closed` is
terminal; while `opened`, every non-close operation succeeds and keeps the
handle open, and the one `close()` call succeeds, moving it to `closed`. -/
theorem stepHandle_lifecycle :
    (∀ op, stepHandle .closed op = .error .useAfterClose) ∧
    stepHandle .opened .closeHandle = .ok .closed ∧
    (∀ op, op ≠ StoreOp.closeHandle → stepHandle .opened op = .ok .opened) ∧
    (∀ op s, stepHandle .closed op ≠ .ok s) := by
    refine ⟨?_, rfl, ?_, ?_⟩
    · intro op
      cases op <;> rfl
    · intro op h
      cases op <;> first | rfl | exact absurd rfl h
    · intro op s h
      cases op <;> exact Except.noConfusion h

/-- C8 witness: a query on the open handle succeeds, and the same query
after close fails with `UseAfterClose`. -/
theorem stepHandle_lifecycle_witness :
    stepHandle .opened .query = .ok .opened ∧
    stepHandle .closed .query = .error .useAfterClose :=
  ⟨stepHandle_lifecycle.2.2.1 .query (by decide), stepHandle_lifecycle.1 .query⟩

/-- A successful run of the user batch forces all the emails involved —
those already committed and those of the batch, in order — to be pairwise
distinct. -/
theorem insertUsersRun_ok_nodup :
    ∀ (rows : List (String × Int × String × Option String)) (db db' : DB),
      insertUsersRun db rows = .ok db' →
      (db.users.map (fun u => u.email)).Nodup →
      (db.users.map (fun u => u.email) ++ rows.map (fun r => r.2.2.1)).Nodup
  | [], db, db', h, hnd => by simpa using hnd
  | r :: rs, db, db', h, hnd => by
    unfold insertUsersRun at h
    cases hins : insertUser db r with
    | error e => rw [hins] at h; exact Except.noConfusion h
    | ok db1 =>
      rw [hins] at h
      unfold insertUser at hins
      by_cases hany : db.users.any (fun u => u.email == r.2.2.1) = true
      · rw [if_pos hany] at hins
        exact Except.noConfusion hins
      · rw [if_neg hany] at hins
        injection hins with hdb1
        have hmail : db1.users.map (fun u => u.email) =
            db.users.map (fun u => u.email) ++ [r.2.2.1] := by
          rw [← hdb1]
          simp
        have hnotmem : r.2.2.1 ∉ db.users.map (fun u => u.email) := by
          intro hmem
          apply hany
          rw [List.any_eq_true]
          rw [List.mem_map] at hmem
          obtain ⟨u, hu, he⟩ := hmem
          exact ⟨u, hu, by simp [he]⟩
        have hnd1 : (db1.users.map (fun u => u.email)).Nodup := by
          rw [hmail, List.nodup_append]
          exact ⟨hnd, List.nodup_singleton _,
            fun a ha hb => hnotmem (by simpa [List.mem_singleton.mp hb] using ha)⟩
        have ih := insertUsersRun_ok_nodup rs db1 db' h hnd1
        rw [hmail] at ih
        rw [List.map_cons, List.append_cons]
        exact ih

/-- The only error the user batch can raise is the uniqueness violation of
`users.email`. -/
theorem insertUsersRun_error_shape :
    ∀ (rows : List (String × Int × String × Option String)) (db : DB)
      (e : DalError), insertUsersRun db rows = .error e →
      e = .constraintViolation "UNIQUE constraint failed: users.email"
  | [], db, e, h => Except.noConfusion h
  | r :: rs, db, e, h => by
    unfold insertUsersRun at h
    cases hins : insertUser db r with
    | error e1 =>
      rw [hins] at h
      injection h with h1
      unfold insertUser at hins
      by_cases hany : db.users.any (fun u => u.email == r.2.2.1) = true
      · rw [if_pos hany] at hins
        injection hins with h2
        rw [← h1, ← h2]
      · rw [if_neg hany] at hins
        exact Except.noConfusion hins
    | ok db1 =>
      rw [hins] at h
      exact insertUsersRun_error_shape rs db1 e h

/-- C2: if the committed table satisfies the email-uniqueness invariant
and the batch introduces any duplicate email — against a committed row or
an earlier row of the same batch — then the `executemany` run raises the
email uniqueness `ConstraintViolation` and the committed users table is
byte-for-byte unchanged: none of the batch's rows are committed. -/
theorem seedUsers_duplicate_email_all_or_nothing (db : DB)
    (rows : List (String × Int × String × Option String))
    (hinv : (db.users.map (fun u => u.email)).Nodup)
    (hdup : ¬ (db.users.map (fun u => u.email) ++
      rows.map (fun r => r.2.2.1)).Nodup) :
    insertUsersRun db rows =
      .error (.constraintViolation "UNIQUE constraint failed: users.email") ∧
    seedUsersCommitted db rows = db := by
    cases hrun : insertUsersRun db rows with
    | ok db1 => exact absurd (insertUsersRun_ok_nodup rows db db1 hrun hinv) hdup
    | error e =>
      have he := insertUsersRun_error_shape rows db e hrun
      subst he
      exact ⟨rfl, by unfold seedUsersCommitted; rw [hrun]⟩

/-- C2 witness: re-inserting Alice's email into the seeded table fails
with the uniqueness violation and commits nothing. -/
theorem seedUsers_duplicate_email_all_or_nothing_witness :
    insertUsersRun scriptSeededDB [("Eve", 28, "alice@example.com", some "Miami")] =
      .error (.constraintViolation "UNIQUE constraint failed: users.email") ∧
    seedUsersCommitted scriptSeededDB
      [("Eve", 28, "alice@example.com", some "Miami")] = scriptSeededDB :=
  seedUsers_duplicate_email_all_or_nothing scriptSeededDB
    [("Eve", 28, "alice@example.com", some "Miami")] (by decide) (by decide)

/-- In a table whose names are pairwise distinct, filtering by one stored
user's name yields exactly that user's row. -/
theorem filter_by_name_of_nodup :
    ∀ (l : List User), (l.map (fun u => u.name)).Nodup →
      ∀ u ∈ l, l.filter (fun w => w.name == u.name) = [u]
  | [], _, u, hu => absurd hu (List.not_mem_nil u)
  | v :: t, hnd, u, hu => by
    rw [List.map_cons, List.nodup_cons] at hnd
    rcases List.mem_cons.mp hu with h | h
    · subst h
      rw [List.filter_cons_of_pos (by simp)]
      have ht : t.filter (fun w => w.name == u.name) = [] := by
        rw [List.filter_eq_nil_iff]
        intro w hw
        simp only [beq_iff_eq]
        intro hww
        apply hnd.1
        rw [← hww]
        exact List.mem_map_of_mem (fun x => x.name) hw
      rw [ht]
    · have hvu : ¬ (v.name == u.name) = true := by
        simp only [beq_iff_eq]
        intro hv
        apply hnd.1
        rw [hv]
        exact List.mem_map_of_mem (fun x => x.name) h
      rw [@List.filter_cons_of_neg _ (fun w => w.name == u.name) v t hvu]
      exact filter_by_name_of_nodup t hnd.2 u h

/-- C5: when the stored names are pairwise distinct (as in every state the
script reaches), the grouped count query emits exactly one `(name, count)`
row per user — a user with no orders is paired with 0, every other user
with the exact number of their orders — and the `HAVING COUNT(...) > 1`
variant returns exactly the rows of the users whose count exceeds 1. -/
theorem groupOrderCounts_per_user (db : DB)
    (h : (db.users.map (fun u => u.name)).Nodup) :
    groupOrderCounts db =
      db.users.map (fun u => (u.name, userOrderCount db u)) ∧
    groupOrderCountsHaving1 db =
      (db.users.map (fun u => (u.name, userOrderCount db u))).filter
        (fun p => 1 < p.2) := by
  have h1 : groupOrderCounts db =
      db.users.map (fun u => (u.name, userOrderCount db u)) := by
    unfold groupOrderCounts
    rw [List.dedup_eq_self.mpr h, List.map_map]
    apply List.map_congr_left
    intro u hu
    simp only [Function.comp_apply]
    rw [filter_by_name_of_nodup db.users h u hu]
    simp
  refine ⟨h1, ?_⟩
  unfold groupOrderCountsHaving1
  rw [h1]

/-- C5 witness: on the script's populated state — Alice with 2 orders,
Charlie and David with 1 each — the grouped query lists every user with
its true count and the HAVING variant keeps only Alice. -/
theorem groupOrderCounts_per_user_witness :
    groupOrderCounts scriptPreTxDB =
      scriptPreTxDB.users.map
        (fun u => (u.name, userOrderCount scriptPreTxDB u)) ∧
    groupOrderCountsHaving1 scriptPreTxDB =
      (scriptPreTxDB.users.map
        (fun u => (u.name, userOrderCount scriptPreTxDB u))).filter
        (fun p => 1 < p.2) :=
  groupOrderCounts_per_user scriptPreTxDB (by decide)

/-- C7: reading the view returns, on every database state, exactly the
sequence the inner-join query produces when run directly — the view keeps
no state of its own — and every emitted triple comes from a user row and a
matching order row, so a user with no matching order contributes nothing. -/
theorem userOrdersView_matches_join (db : DB) :
    userOrdersViewRead db = joinUserOrders db ∧
    ∀ t ∈ userOrdersViewRead db, ∃ u ∈ db.users, ∃ o ∈ db.orders,
      o.user_id = u.id ∧ t = (u.name, o.product_name, o.quantity) := by
  refine ⟨rfl, ?_⟩
  intro t ht
  unfold userOrdersViewRead at ht
  rw [List.mem_flatMap] at ht
  obtain ⟨u, hu, ht⟩ := ht
  rw [List.mem_map] at ht
  obtain ⟨o, ho, rfl⟩ := ht
  rw [List.mem_filter] at ho
  exact ⟨u, hu, o, ho.1, by simpa using ho.2, rfl⟩

/-- C7 witness: on the script's populated state the view read equals the
direct join, and its first row traces back to Alice's Laptop order. -/
theorem userOrdersView_matches_join_witness :
    userOrdersViewRead scriptPreTxDB = joinUserOrders scriptPreTxDB ∧
    ∃ u ∈ scriptPreTxDB.users, ∃ o ∈ scriptPreTxDB.orders,
      o.user_id = u.id ∧
      (("Alice", "Laptop", (1 : Int)) : String × String × Int) =
        (u.name, o.product_name, o.quantity) :=
  ⟨(userOrdersView_matches_join scriptPreTxDB).1,
   (userOrdersView_matches_join scriptPreTxDB).2 ("Alice", "Laptop", 1)
     (by decide)⟩

/-- The trigger's row action changes nothing when every row bearing the
targeted id already carries the new age. -/
theorem triggerAction_of_already_set (db : DB) (oldId : Nat) (newAge : Int)
    (h : ∀ u ∈ db.users, u.id = oldId → u.age = newAge) :
    triggerAction db oldId newAge = db := by
  unfold triggerAction
  have hm : db.users.map
      (fun u => if u.id == oldId then { u with age := newAge } else u) =
      db.users := by
    apply map_fixed_point
    intro u hu
    by_cases hid : (u.id == oldId) = true
    · rw [if_pos hid]
      have ha := h u hu (by simpa using hid)
      rw [← ha]
    · rw [if_neg hid]
  rw [hm]

/-- C9: on a table whose ids are pairwise distinct (the PRIMARY KEY
invariant), running the age update with the `update_user_age` trigger
installed produces exactly the state of the plain update: the trigger's
re-assignment of `age = NEW.age` to the already-updated row is a no-op. -/
theorem updateWithTrigger_eq_update (db : DB) (n : String) (v : Int)
    (h : (db.users.map (fun u => u.id)).Nodup) :
    updateUserAgeWithTrigger db n v = updateUserAge db n v := by
  have hfix : ∀ u ∈ db.users.filter (fun u => u.name == n),
      triggerAction (updateUserAge db n v).2 u.id v =
        (updateUserAge db n v).2 := by
    intro u hu
    rw [List.mem_filter] at hu
    apply triggerAction_of_already_set
    intro w hw hwid
    have hw2 : w ∈ db.users.map
        (fun x => if x.name == n then { x with age := v } else x) := hw
    rw [List.mem_map] at hw2
    obtain ⟨x, hx, hxe⟩ := hw2
    have hxid : x.id = u.id := by
      by_cases hxn : (x.name == n) = true
      · rw [if_pos hxn] at hxe
        rw [← hxe] at hwid
        exact hwid
      · rw [if_neg hxn] at hxe
        rw [← hxe] at hwid
        exact hwid
    have hxu : x = u := List.inj_on_of_nodup_map h hx hu.1 hxid
    subst hxu
    rw [if_pos hu.2] at hxe
    rw [← hxe]
  unfold updateUserAgeWithTrigger
  rw [foldl_fixed_point _ _ _ hfix]

/-- C9 witness: re-running the script's own update (Alice's age to 31) on
the populated state gives the same result with and without the trigger. -/
theorem updateWithTrigger_eq_update_witness :
    updateUserAgeWithTrigger scriptPreTxDB "Alice" 31 =
      updateUserAge scriptPreTxDB "Alice" 31 :=
  updateWithTrigger_eq_update scriptPreTxDB "Alice" 31 (by decide)
